import Mathlib

/-!
Shallow embedding of the nutrition-calculator engine.

The engine lives in `src/unnamed/part_002` (`calculateAll` and its helpers);
the stub the page actually imports lives in `src/lib/calcs.ts`.  JavaScript
numbers are modelled as exact rationals extended with a `nan` element, since
the TypeScript non-null assertions (`input.weight.lb!` etc.) are erased at
runtime and a missing field flows into the arithmetic as `undefined`,
producing `NaN`.  Arithmetic on `nan` propagates `nan`; every comparison
involving `nan` is false, exactly as in JavaScript.
-/

namespace NutritionCalc

/-- A JavaScript number: either an exact rational value or NaN. -/
inductive JVal where
  | num (q : ℚ)
  | nan
deriving DecidableEq

namespace JVal

def add : JVal → JVal → JVal
  | num a, num b => num (a + b)
  | _, _ => nan

def sub : JVal → JVal → JVal
  | num a, num b => num (a - b)
  | _, _ => nan

def mul : JVal → JVal → JVal
  | num a, num b => num (a * b)
  | _, _ => nan

def div : JVal → JVal → JVal
  | num a, num b => num (a / b)
  | _, _ => nan

def neg : JVal → JVal
  | num a => num (-a)
  | nan => nan

instance : Add JVal := ⟨add⟩
instance : Sub JVal := ⟨sub⟩
instance : Mul JVal := ⟨mul⟩
instance : Div JVal := ⟨div⟩
instance : Neg JVal := ⟨neg⟩

instance (n : Nat) : OfNat JVal n := ⟨num (OfNat.ofNat n)⟩

instance : OfScientific JVal :=
  ⟨fun m e d => num (OfScientific.ofScientific m e d)⟩

end JVal

/-- JavaScript strict less-than: false whenever either operand is NaN. -/
def jlt : JVal → JVal → Bool
  | JVal.num a, JVal.num b => decide (a < b)
  | _, _ => false

/-- `Math.round`: round half toward positive infinity; NaN maps to NaN. -/
def jround : JVal → JVal
  | JVal.num q => JVal.num ((⌊q + 1/2⌋ : ℤ) : ℚ)
  | JVal.nan => JVal.nan

/-- Reading an optional field into arithmetic: a missing field is
`undefined`, which becomes NaN the moment it is used as a number. -/
def jget : Option ℚ → JVal
  | some q => JVal.num q
  | none => JVal.nan

/-- JavaScript truthiness of a `number | undefined` value:
`undefined`, `0` and `NaN` are falsy. -/
def jsTruthy : Option JVal → Bool
  | none => false
  | some JVal.nan => false
  | some (JVal.num q) => decide (q ≠ 0)

/- ======================== Input data model ======================== -/

inductive Sex where
  | male
  | female
deriving DecidableEq

inductive UnitSystem where
  | us
  | metric
deriving DecidableEq

inductive BodyFatMode where
  | known
  | unknown
deriving DecidableEq

structure HeightInput where
  cm : Option ℚ
  inches : Option ℚ
deriving DecidableEq

structure WeightInput where
  kg : Option ℚ
  lb : Option ℚ
deriving DecidableEq

structure ActivityInput where
  preset : Option ℚ
  useCustom : Bool
  customMultiplier : Option ℚ
deriving DecidableEq

structure DeltasInput where
  cut : ℚ
  bulk : ℚ
  recomp : ℚ
deriving DecidableEq

structure DexaInput where
  enabled : Bool
  fatMassKg : Option ℚ
  leanMassKg : Option ℚ
deriving DecidableEq

structure ProfileInput where
  unitSystem : UnitSystem
  sex : Sex
  ageYears : ℚ
  height : HeightInput
  weight : WeightInput
  bodyFatMode : BodyFatMode
  bodyFatPercent : Option ℚ
  activity : ActivityInput
  deltas : DeltasInput
  bulkProteinGPerLb : ℚ
  dexa : DexaInput
deriving DecidableEq

/- ======================== Output data model ======================== -/

structure BmrMethods where
  mifflin : Option JVal
  revisedHarrisBenedict : Option JVal
  katchMcArdle : Option JVal
  nelson : Option JVal
  muller : Option JVal
deriving DecidableEq

structure BmrBreakdown where
  recommendedBmr : JVal
  methods : BmrMethods
deriving DecidableEq

structure MacroTargets where
  calories : JVal
  proteinG : JVal
  fatG : JVal
  carbsG : JVal
deriving DecidableEq

structure Results where
  bmr : BmrBreakdown
  tdee : JVal
  maintenance : MacroTargets
  cut : MacroTargets
  bulk : MacroTargets
  recomp : MacroTargets
  warnings : List String
deriving DecidableEq

/- ======================== Engine helpers (part_002 lines 7-10) ======== -/

def lbToKg (lb : JVal) : JVal := lb * 0.45359237

def inToCm (inches : JVal) : JVal := inches * 2.54

/- ==== Unit normalization (part_002 lines 52-64) ==== -/

def weightKgOf (input : ProfileInput) : JVal :=
  if input.unitSystem = UnitSystem.us then lbToKg (jget input.weight.lb)
  else jget input.weight.kg

def weightLbOf (input : ProfileInput) : JVal :=
  weightKgOf input / 0.45359237

def heightCmOf (input : ProfileInput) : JVal :=
  if input.unitSystem = UnitSystem.us then inToCm (jget input.height.inches)
  else jget input.height.cm

def sexFactorOf (input : ProfileInput) : JVal :=
  if input.sex = Sex.male then 5 else -161

/- ==== Body composition (part_002 lines 66-82).  The source first copies
the DEXA fields when `dexa.enabled`, then overwrites both masses when
either current value is falsy and the body-fat-percent fallback applies. -/

def massesOf (input : ProfileInput) : Option JVal × Option JVal :=
  let fat0 : Option JVal :=
    if input.dexa.enabled then input.dexa.fatMassKg.map JVal.num else none
  let lean0 : Option JVal :=
    if input.dexa.enabled then input.dexa.leanMassKg.map JVal.num else none
  if (jsTruthy fat0 = false ∨ jsTruthy lean0 = false) ∧
      input.bodyFatMode = BodyFatMode.known ∧
      input.bodyFatPercent.isSome = true then
    let fatMassKg := weightKgOf input * (jget input.bodyFatPercent / 100)
    (some fatMassKg, some (weightKgOf input - fatMassKg))
  else
    (fat0, lean0)

/- ==== BMR formula bank (part_002 lines 84-108) ==== -/

def mifflinOf (input : ProfileInput) : JVal :=
  10 * weightKgOf input + 6.25 * heightCmOf input
    - 5 * JVal.num input.ageYears + sexFactorOf input

def revisedHarrisBenedictOf (input : ProfileInput) : JVal :=
  if input.sex = Sex.male then
    88.362 + 13.397 * weightKgOf input + 4.799 * heightCmOf input
      - 5.677 * JVal.num input.ageYears
  else
    447.593 + 9.247 * weightKgOf input + 3.098 * heightCmOf input
      - 4.33 * JVal.num input.ageYears

def katchMcArdleOf (input : ProfileInput) : Option JVal :=
  ((massesOf input).2).map (fun lm => 370 + 21.6 * lm)

def nelsonOf (input : ProfileInput) : Option JVal :=
  match massesOf input with
  | (some f, some l) => some (25.8 * l + 4.04 * f)
  | _ => none

def mullerOf (input : ProfileInput) : Option JVal :=
  match massesOf input with
  | (some f, some l) => some (13.587 * l + 9.613 * f + 198)
  | _ => none

/- ==== Recommended BMR (part_002 lines 110-117) ==== -/

def recommendedBmrRawOf (input : ProfileInput) : JVal :=
  match input.bodyFatMode, katchMcArdleOf input with
  | BodyFatMode.known, some k => k
  | _, _ => (mifflinOf input + revisedHarrisBenedictOf input) / 2

/- ==== TDEE (part_002 lines 119-124) ==== -/

def activityMultiplierOf (input : ProfileInput) : JVal :=
  if input.activity.useCustom then jget input.activity.customMultiplier
  else jget input.activity.preset

def tdeeRawOf (input : ProfileInput) : JVal :=
  recommendedBmrRawOf input * activityMultiplierOf input

/- ==== Macro sub-routine (part_002 lines 130-153).  The source pushes
warnings onto a shared array; here the pushed warnings are returned as the
second component and concatenated in call order by the caller. -/

def makeMacros (calories proteinG fatPercent : JVal) :
    MacroTargets × List String :=
  let fatCalories := calories * fatPercent
  let fatG := fatCalories / 9
  let warns :=
    if jlt fatG 50 then ["Fat intake is below 50 g/day."] else []
  let remainingCalories := calories - proteinG * 4 - fatG * 9
  let carbsG := remainingCalories / 4
  ({ calories := jround calories
     proteinG := jround proteinG
     fatG := jround fatG
     carbsG := jround carbsG }, warns)

/- ==== Assembly (part_002 lines 155-205).  The conditional expressions
`x ? round(x) : undefined` on lines 193-195 are truthiness tests on the
unrounded numeric value. -/

def truthyRound (o : Option JVal) : Option JVal :=
  if jsTruthy o then o.map jround else none

def calculateAll (input : ProfileInput) : Results :=
  let tdee := tdeeRawOf input
  let weightLb := weightLbOf input
  let maintenance := makeMacros tdee (weightLb * 1.0) 0.25
  let cut := makeMacros (tdee + JVal.num input.deltas.cut) (weightLb * 1.0) 0.25
  let recomp := makeMacros (tdee + JVal.num input.deltas.recomp) (weightLb * 1.0) 0.2
  let bulkProtein := weightLb * JVal.num input.bulkProteinGPerLb
  let bulk := makeMacros (tdee + JVal.num input.deltas.bulk) bulkProtein 0.3
  { bmr :=
      { recommendedBmr := jround (recommendedBmrRawOf input)
        methods :=
          { mifflin := some (jround (mifflinOf input))
            revisedHarrisBenedict := some (jround (revisedHarrisBenedictOf input))
            katchMcArdle := truthyRound (katchMcArdleOf input)
            nelson := truthyRound (nelsonOf input)
            muller := truthyRound (mullerOf input) } }
    tdee := jround tdee
    maintenance := maintenance.1
    cut := cut.1
    bulk := bulk.1
    recomp := recomp.1
    warnings := maintenance.2 ++ cut.2 ++ recomp.2 ++ bulk.2 }

/- ==== The stub in src/lib/calcs.ts (lines 31-33) always throws. ==== -/

def libCalculateAll : ProfileInput → Except String Results :=
  fun _ => Except.error "Not implemented yet"

/-- The full engine of part_002 viewed at the same fallible signature as the
stub: it never throws, so it always returns `ok`. -/
def calculateAllE (input : ProfileInput) : Except String Results :=
  Except.ok (calculateAll input)

/- ======================== Validity of inputs ======================== -/

def isPos (o : Option ℚ) : Bool :=
  match o with
  | some q => decide (0 < q)
  | none => false

def bfOk (o : Option ℚ) : Bool :=
  match o with
  | some p => decide (0 ≤ p ∧ p ≤ 80)
  | none => false

/-- The invariants the upstream normalizer guarantees (spec section 6):
the active unit system's height and weight are present and positive, age is
positive, exactly one activity source is populated, a known body-fat mode
carries a percentage in [0, 80], an enabled DEXA record carries at least
one positive mass, and the bulk protein density lies in [0.7, 1.0]. -/
abbrev Valid (i : ProfileInput) : Prop :=
  (i.unitSystem = UnitSystem.us →
    isPos i.weight.lb = true ∧ isPos i.height.inches = true) ∧
  (i.unitSystem = UnitSystem.metric →
    isPos i.weight.kg = true ∧ isPos i.height.cm = true) ∧
  (0 < i.ageYears) ∧
  (i.activity.useCustom = true → i.activity.customMultiplier.isSome = true) ∧
  (i.activity.useCustom = false → i.activity.preset.isSome = true) ∧
  (i.bodyFatMode = BodyFatMode.known → bfOk i.bodyFatPercent = true) ∧
  (i.dexa.enabled = true →
    isPos i.dexa.fatMassKg = true ∨ isPos i.dexa.leanMassKg = true) ∧
  (7/10 ≤ i.bulkProteinGPerLb ∧ i.bulkProteinGPerLb ≤ 1)

/-- Spec example scenario 1: male, 30 years, US units, 180 lb, 70 in, body
fat unknown, preset multiplier 1.55, default deltas, bulk protein 1.0. -/
def sampleInput : ProfileInput :=
  { unitSystem := UnitSystem.us
    sex := Sex.male
    ageYears := 30
    height := { cm := none, inches := some 70 }
    weight := { kg := none, lb := some 180 }
    bodyFatMode := BodyFatMode.unknown
    bodyFatPercent := none
    activity := { preset := some 1.55, useCustom := false, customMultiplier := none }
    deltas := { cut := -500, bulk := 500, recomp := -200 }
    bulkProteinGPerLb := 1
    dexa := { enabled := false, fatMassKg := none, leanMassKg := none } }

/- ======================== Computation lemmas ======================== -/

namespace JVal

@[simp] theorem num_add (a b : ℚ) : num a + num b = num (a + b) := rfl

@[simp] theorem num_sub (a b : ℚ) : num a - num b = num (a - b) := rfl

@[simp] theorem num_mul (a b : ℚ) : num a * num b = num (a * b) := rfl

@[simp] theorem num_div (a b : ℚ) : num a / num b = num (a / b) := rfl

@[simp] theorem nan_add (x : JVal) : nan + x = nan := by cases x <;> rfl

@[simp] theorem add_nan (x : JVal) : x + nan = nan := by cases x <;> rfl

@[simp] theorem nan_sub (x : JVal) : nan - x = nan := by cases x <;> rfl

@[simp] theorem sub_nan (x : JVal) : x - nan = nan := by cases x <;> rfl

@[simp] theorem nan_mul (x : JVal) : nan * x = nan := by cases x <;> rfl

@[simp] theorem mul_nan (x : JVal) : x * nan = nan := by cases x <;> rfl

@[simp] theorem nan_div (x : JVal) : nan / x = nan := by cases x <;> rfl

@[simp] theorem div_nan (x : JVal) : x / nan = nan := by cases x <;> rfl

@[simp] theorem ofScientific_eq (m : ℕ) (d : Bool) (e : ℕ) :
    (OfScientific.ofScientific m d e : JVal) =
      num (OfScientific.ofScientific m d e : ℚ) := rfl

@[simp] theorem ofNat_eq (n : ℕ) :
    (no_index (OfNat.ofNat n) : JVal) = num (OfNat.ofNat n : ℚ) := rfl

end JVal

@[simp] theorem jget_some (q : ℚ) : jget (some q) = JVal.num q := rfl

@[simp] theorem jget_none : jget none = JVal.nan := rfl

@[simp] theorem jlt_num (a b : ℚ) :
    jlt (JVal.num a) (JVal.num b) = decide (a < b) := rfl

@[simp] theorem jlt_nan_left (x : JVal) : jlt JVal.nan x = false := by
  cases x <;> rfl

@[simp] theorem jlt_nan_right (x : JVal) : jlt x JVal.nan = false := by
  cases x <;> rfl

@[simp] theorem jround_num (q : ℚ) :
    jround (JVal.num q) = JVal.num ((⌊q + 1/2⌋ : ℤ) : ℚ) := rfl

@[simp] theorem jround_nan : jround JVal.nan = JVal.nan := rfl

@[simp] theorem jsTruthy_none : jsTruthy none = false := rfl

@[simp] theorem jsTruthy_some_num (q : ℚ) :
    jsTruthy (some (JVal.num q)) = decide (q ≠ 0) := rfl

@[simp] theorem jsTruthy_some_nan : jsTruthy (some JVal.nan) = false := rfl

/-- The sample profile satisfies every normalizer invariant. -/
theorem valid_sample : Valid sampleInput := by
  refine ⟨?_, ?_, ?_, ?_, ?_, ?_, ?_, ?_⟩ <;>
    simp [sampleInput, isPos, bfOk] <;> norm_num

/- ======================== C1 ======================== -/

/-- C1: the output `recommendedBmr` is the rounded Katch-McArdle estimate
`370 + 21.6 * leanMassKg` exactly when `bodyFatMode == known` and lean mass
resolved, and otherwise the rounded arithmetic mean of Mifflin-St Jeor and
Revised Harris-Benedict; in particular, with DEXA enabled and both masses
supplied but `bodyFatMode == unknown`, the mean is still used. -/
theorem recommended_bmr_policy (input : ProfileInput) (hv : Valid input) :
    ((calculateAll input).bmr.recommendedBmr =
      match input.bodyFatMode, (massesOf input).2 with
      | BodyFatMode.known, some lm => jround (370 + 21.6 * lm)
      | _, _ => jround ((mifflinOf input + revisedHarrisBenedictOf input) / 2)) ∧
    (input.dexa.enabled = true → input.dexa.fatMassKg.isSome = true →
      input.dexa.leanMassKg.isSome = true →
      input.bodyFatMode = BodyFatMode.unknown →
      (calculateAll input).bmr.recommendedBmr =
        jround ((mifflinOf input + revisedHarrisBenedictOf input) / 2)) := by
  have h1 : (calculateAll input).bmr.recommendedBmr
      = jround (recommendedBmrRawOf input) := rfl
  constructor
  · rw [h1]
    unfold recommendedBmrRawOf katchMcArdleOf
    cases hb : input.bodyFatMode <;> cases hm : (massesOf input).2 <;> simp
  · intro _ _ _ hu
    rw [h1]
    unfold recommendedBmrRawOf
    rw [hu]

/-- C1 witness: the policy theorem applied to the sample profile. -/
theorem recommended_bmr_policy_witness :
    Valid sampleInput ∧
    ((calculateAll sampleInput).bmr.recommendedBmr =
      match sampleInput.bodyFatMode, (massesOf sampleInput).2 with
      | BodyFatMode.known, some lm => jround (370 + 21.6 * lm)
      | _, _ => jround ((mifflinOf sampleInput + revisedHarrisBenedictOf sampleInput) / 2)) :=
  ⟨valid_sample, (recommended_bmr_policy sampleInput valid_sample).1⟩

/- ======================== C2 ======================== -/

/-- C2: each goal's `MacroTargets` is the shared macro sub-routine applied
to the documented (calorie base, protein grams, fat fraction) triple, with
`fatG = calories * fatFraction / 9`,
`carbsG = (calories - proteinG*4 - fatG*9) / 4`, unrounded intermediates,
and all four fields rounded independently at the end. -/
theorem goal_macro_targets (input : ProfileInput) (hv : Valid input) :
    (calculateAll input).maintenance =
      (makeMacros (tdeeRawOf input) (weightLbOf input * 1.0) 0.25).1 ∧
    (calculateAll input).cut =
      (makeMacros (tdeeRawOf input + JVal.num input.deltas.cut)
        (weightLbOf input * 1.0) 0.25).1 ∧
    (calculateAll input).recomp =
      (makeMacros (tdeeRawOf input + JVal.num input.deltas.recomp)
        (weightLbOf input * 1.0) 0.2).1 ∧
    (calculateAll input).bulk =
      (makeMacros (tdeeRawOf input + JVal.num input.deltas.bulk)
        (weightLbOf input * JVal.num input.bulkProteinGPerLb) 0.3).1 ∧
    (calculateAll input).maintenance =
      { calories := jround (tdeeRawOf input)
        proteinG := jround (weightLbOf input * 1.0)
        fatG := jround ((tdeeRawOf input * 0.25) / 9)
        carbsG := jround ((tdeeRawOf input - (weightLbOf input * 1.0) * 4
          - ((tdeeRawOf input * 0.25) / 9) * 9) / 4) } ∧
    (calculateAll input).cut =
      { calories := jround (tdeeRawOf input + JVal.num input.deltas.cut)
        proteinG := jround (weightLbOf input * 1.0)
        fatG := jround (((tdeeRawOf input + JVal.num input.deltas.cut) * 0.25) / 9)
        carbsG := jround (((tdeeRawOf input + JVal.num input.deltas.cut)
          - (weightLbOf input * 1.0) * 4
          - (((tdeeRawOf input + JVal.num input.deltas.cut) * 0.25) / 9) * 9) / 4) } ∧
    (calculateAll input).recomp =
      { calories := jround (tdeeRawOf input + JVal.num input.deltas.recomp)
        proteinG := jround (weightLbOf input * 1.0)
        fatG := jround (((tdeeRawOf input + JVal.num input.deltas.recomp) * 0.2) / 9)
        carbsG := jround (((tdeeRawOf input + JVal.num input.deltas.recomp)
          - (weightLbOf input * 1.0) * 4
          - (((tdeeRawOf input + JVal.num input.deltas.recomp) * 0.2) / 9) * 9) / 4) } ∧
    (calculateAll input).bulk =
      { calories := jround (tdeeRawOf input + JVal.num input.deltas.bulk)
        proteinG := jround (weightLbOf input * JVal.num input.bulkProteinGPerLb)
        fatG := jround (((tdeeRawOf input + JVal.num input.deltas.bulk) * 0.3) / 9)
        carbsG := jround (((tdeeRawOf input + JVal.num input.deltas.bulk)
          - (weightLbOf input * JVal.num input.bulkProteinGPerLb) * 4
          - (((tdeeRawOf input + JVal.num input.deltas.bulk) * 0.3) / 9) * 9) / 4) } :=
  ⟨rfl, rfl, rfl, rfl, rfl, rfl, rfl, rfl⟩

/-- C2 witness: the macro-target theorem applied to the sample profile. -/
theorem goal_macro_targets_witness :
    Valid sampleInput ∧
    (calculateAll sampleInput).maintenance =
      (makeMacros (tdeeRawOf sampleInput) (weightLbOf sampleInput * 1.0) 0.25).1 ∧
    (calculateAll sampleInput).bulk =
      (makeMacros (tdeeRawOf sampleInput + JVal.num sampleInput.deltas.bulk)
        (weightLbOf sampleInput * JVal.num sampleInput.bulkProteinGPerLb) 0.3).1 :=
  ⟨valid_sample, (goal_macro_targets sampleInput valid_sample).1,
    (goal_macro_targets sampleInput valid_sample).2.2.2.1⟩

/- ======================== C3 ======================== -/

/-- A valid profile with DEXA enabled, `fatMassKg = 0`, `leanMassKg = 50`,
and a known body-fat percentage of 20 at 100 kg. -/
def dexaZeroFatInput : ProfileInput :=
  { unitSystem := UnitSystem.metric
    sex := Sex.male
    ageYears := 30
    height := { cm := some 170, inches := none }
    weight := { kg := some 100, lb := none }
    bodyFatMode := BodyFatMode.known
    bodyFatPercent := some 20
    activity := { preset := some 1.55, useCustom := false, customMultiplier := none }
    deltas := { cut := -500, bulk := 500, recomp := -200 }
    bulkProteinGPerLb := 1
    dexa := { enabled := true, fatMassKg := some 0, leanMassKg := some 50 } }

/-- C3 counterexample: DEXA is enabled with both masses present
(`fatMassKg = 0`, `leanMassKg = 50`), yet the engine does not use them
directly — a fat mass of 0 is JS-falsy, so the body-fat-percent branch
overwrites both masses (20 kg / 80 kg), and Katch-McArdle is computed from
lean mass 80, not 50. -/
theorem composition_order_counterexample :
    Valid dexaZeroFatInput ∧
    dexaZeroFatInput.dexa.enabled = true ∧
    dexaZeroFatInput.dexa.fatMassKg = some 0 ∧
    dexaZeroFatInput.dexa.leanMassKg = some 50 ∧
    massesOf dexaZeroFatInput ≠ (some (JVal.num 0), some (JVal.num 50)) ∧
    massesOf dexaZeroFatInput = (some (JVal.num 20), some (JVal.num 80)) ∧
    (calculateAll dexaZeroFatInput).bmr.methods.katchMcArdle =
      some (JVal.num 2098) := by
  have hm : massesOf dexaZeroFatInput = (some (JVal.num 20), some (JVal.num 80)) := by
    simp [massesOf, dexaZeroFatInput, weightKgOf]
    norm_num
  refine ⟨?_, rfl, rfl, rfl, ?_, hm, ?_⟩
  · refine ⟨?_, ?_, ?_, ?_, ?_, ?_, ?_, ?_⟩ <;>
      simp [dexaZeroFatInput, isPos, bfOk] <;> norm_num
  · rw [hm]
    intro h
    simp at h
  · have h0 : (calculateAll dexaZeroFatInput).bmr.methods.katchMcArdle
        = truthyRound (katchMcArdleOf dexaZeroFatInput) := rfl
    rw [h0, katchMcArdleOf, hm]
    simp [truthyRound]
    norm_num

/-- C3 amended: the resolver is not first-applicable-wins over a
"both DEXA masses present" guard.  When `dexa.enabled`, the DEXA fields are
copied first (even if only one is present); then, if either copied mass is
JS-falsy (missing or zero) while `bodyFatMode == known` with a body-fat
percentage present, BOTH masses are overwritten by the percent-derived
values; otherwise the copied values (possibly partial, possibly zero)
remain, and with DEXA disabled and mode unknown both stay unresolved. -/
theorem composition_resolution_amended (input : ProfileInput) (hv : Valid input) :
    massesOf input =
      if input.dexa.enabled = true ∧
          jsTruthy (input.dexa.fatMassKg.map JVal.num) = true ∧
          jsTruthy (input.dexa.leanMassKg.map JVal.num) = true then
        (input.dexa.fatMassKg.map JVal.num, input.dexa.leanMassKg.map JVal.num)
      else if input.bodyFatMode = BodyFatMode.known then
        (some (weightKgOf input * (jget input.bodyFatPercent / 100)),
         some (weightKgOf input - weightKgOf input * (jget input.bodyFatPercent / 100)))
      else if input.dexa.enabled = true then
        (input.dexa.fatMassKg.map JVal.num, input.dexa.leanMassKg.map JVal.num)
      else (none, none) := by
  obtain ⟨-, -, -, -, -, hbf, -, -⟩ := hv
  have hbfs : input.bodyFatMode = BodyFatMode.known →
      input.bodyFatPercent.isSome = true := by
    intro hk
    have := hbf hk
    cases h : input.bodyFatPercent with
    | none => rw [h] at this; simp [bfOk] at this
    | some p => rfl
  unfold massesOf
  cases he : input.dexa.enabled with
  | false =>
    simp only [he, if_false, Bool.false_eq_true]
    cases hb : input.bodyFatMode with
    | known => simp [jsTruthy, hbfs hb]
    | unknown => simp [jsTruthy]
  | true =>
    simp only [he, if_true]
    by_cases hf : jsTruthy (input.dexa.fatMassKg.map JVal.num) = true
    · by_cases hl : jsTruthy (input.dexa.leanMassKg.map JVal.num) = true
      · simp [hf, hl]
      · have hl' : jsTruthy (input.dexa.leanMassKg.map JVal.num) = false :=
          Bool.eq_false_iff.mpr hl
        cases hb : input.bodyFatMode with
        | known => simp [hf, hl', hbfs hb]
        | unknown => simp [hf, hl']
    · have hf' : jsTruthy (input.dexa.fatMassKg.map JVal.num) = false :=
        Bool.eq_false_iff.mpr hf
      cases hb : input.bodyFatMode with
      | known => simp [hf', hbfs hb]
      | unknown => simp [hf']

/-- C3 amended witness: the corrected resolution applied to the sample
profile (DEXA disabled, body fat unknown: both masses unresolved). -/
theorem composition_resolution_amended_witness :
    Valid sampleInput ∧
    massesOf sampleInput =
      (if sampleInput.dexa.enabled = true ∧
          jsTruthy (sampleInput.dexa.fatMassKg.map JVal.num) = true ∧
          jsTruthy (sampleInput.dexa.leanMassKg.map JVal.num) = true then
        (sampleInput.dexa.fatMassKg.map JVal.num, sampleInput.dexa.leanMassKg.map JVal.num)
      else if sampleInput.bodyFatMode = BodyFatMode.known then
        (some (weightKgOf sampleInput * (jget sampleInput.bodyFatPercent / 100)),
         some (weightKgOf sampleInput
           - weightKgOf sampleInput * (jget sampleInput.bodyFatPercent / 100)))
      else if sampleInput.dexa.enabled = true then
        (sampleInput.dexa.fatMassKg.map JVal.num, sampleInput.dexa.leanMassKg.map JVal.num)
      else (none, none)) :=
  ⟨valid_sample, composition_resolution_amended sampleInput valid_sample⟩

/- ======================== C4 ======================== -/

/-- A valid profile (DEXA requires only one positive mass) whose Nelson
estimate is exactly zero: `25.8 * 4.04 + 4.04 * (-25.8) = 0`. -/
def dexaNegFatInput : ProfileInput :=
  { unitSystem := UnitSystem.metric
    sex := Sex.male
    ageYears := 30
    height := { cm := some 170, inches := none }
    weight := { kg := some 70, lb := none }
    bodyFatMode := BodyFatMode.unknown
    bodyFatPercent := none
    activity := { preset := some 1.55, useCustom := false, customMultiplier := none }
    deltas := { cut := -500, bulk := 500, recomp := -200 }
    bulkProteinGPerLb := 1
    dexa := { enabled := true, fatMassKg := some (-129/5), leanMassKg := some (101/25) } }

/-- C4: on a valid input where both masses resolve and Nelson is computed
with value 0, the assembler's truthiness test (`nelson ? round(nelson) :
undefined`, part_002 line 194) drops it, so `nelson` is absent from the
output while `muller` (computed from the same masses) is present — the
claim's "present even when the computed value is 0" fails on the code. -/
theorem nelson_zero_dropped :
    Valid dexaNegFatInput ∧
    massesOf dexaNegFatInput =
      (some (JVal.num (-129/5)), some (JVal.num (101/25))) ∧
    nelsonOf dexaNegFatInput = some (JVal.num 0) ∧
    (calculateAll dexaNegFatInput).bmr.methods.nelson = none ∧
    (calculateAll dexaNegFatInput).bmr.methods.muller = some (JVal.num 5) := by
  have hm : massesOf dexaNegFatInput =
      (some (JVal.num (-129/5)), some (JVal.num (101/25))) := by
    norm_num [massesOf, dexaNegFatInput]
  have hn : nelsonOf dexaNegFatInput = some (JVal.num 0) := by
    rw [nelsonOf, hm]
    norm_num
  have hmu : mullerOf dexaNegFatInput = some (JVal.num (60951/12500)) := by
    rw [mullerOf, hm]
    simp only [JVal.ofScientific_eq, JVal.ofNat_eq, JVal.num_mul, JVal.num_add]
    norm_num
  refine ⟨?_, hm, hn, ?_, ?_⟩
  · refine ⟨?_, ?_, ?_, ?_, ?_, ?_, ?_, ?_⟩ <;>
      simp [dexaNegFatInput, isPos, bfOk] <;> norm_num
  · have h0 : (calculateAll dexaNegFatInput).bmr.methods.nelson
        = truthyRound (nelsonOf dexaNegFatInput) := rfl
    rw [h0, hn]
    simp [truthyRound]
  · have h0 : (calculateAll dexaNegFatInput).bmr.methods.muller
        = truthyRound (mullerOf dexaNegFatInput) := rfl
    rw [h0, hmu]
    simp [truthyRound]
    norm_num

/- ======================== C5 ======================== -/

/-- C5: the warnings sequence is exactly one literal
"Fat intake is below 50 g/day." per goal whose unrounded fat grams are
strictly below 50, accumulated in the evaluation order maintenance, cut,
recomp, bulk, with no other entries. -/
theorem fat_warning_per_goal (input : ProfileInput) (hv : Valid input) :
    (calculateAll input).warnings =
      (if jlt ((tdeeRawOf input * 0.25) / 9) 50
        then ["Fat intake is below 50 g/day."] else []) ++
      (if jlt (((tdeeRawOf input + JVal.num input.deltas.cut) * 0.25) / 9) 50
        then ["Fat intake is below 50 g/day."] else []) ++
      (if jlt (((tdeeRawOf input + JVal.num input.deltas.recomp) * 0.2) / 9) 50
        then ["Fat intake is below 50 g/day."] else []) ++
      (if jlt (((tdeeRawOf input + JVal.num input.deltas.bulk) * 0.3) / 9) 50
        then ["Fat intake is below 50 g/day."] else []) := rfl

/-- C5 witness: the warning-accumulation theorem at the sample profile. -/
theorem fat_warning_per_goal_witness :
    Valid sampleInput ∧
    (calculateAll sampleInput).warnings =
      (if jlt ((tdeeRawOf sampleInput * 0.25) / 9) 50
        then ["Fat intake is below 50 g/day."] else []) ++
      (if jlt (((tdeeRawOf sampleInput + JVal.num sampleInput.deltas.cut) * 0.25) / 9) 50
        then ["Fat intake is below 50 g/day."] else []) ++
      (if jlt (((tdeeRawOf sampleInput + JVal.num sampleInput.deltas.recomp) * 0.2) / 9) 50
        then ["Fat intake is below 50 g/day."] else []) ++
      (if jlt (((tdeeRawOf sampleInput + JVal.num sampleInput.deltas.bulk) * 0.3) / 9) 50
        then ["Fat intake is below 50 g/day."] else []) :=
  ⟨valid_sample, fat_warning_per_goal sampleInput valid_sample⟩

/- ======================== C6 ======================== -/

/-- C6: the macro sub-routine is total and never clamps carbohydrates: for
every calorie base, protein grams and fat fraction the output `carbsG` is
the rounded value of `(calories - proteinG*4 - fatG*9) / 4`, surfaced
as-is, and a low-calorie high-protein combination yields a negative value. -/
theorem carbs_not_clamped :
    (∀ c p f : JVal, (makeMacros c p f).1.carbsG =
      jround ((c - p * 4 - ((c * f) / 9) * 9) / 4)) ∧
    (makeMacros 1000 300 0.3).1.carbsG = JVal.num (-125) ∧
    jlt (makeMacros 1000 300 0.3).1.carbsG 0 = true := by
  refine ⟨fun _ _ _ => rfl, ?_, ?_⟩ <;> simp [makeMacros] <;> norm_num

/- ======================== C7 ======================== -/

/-- A profile whose active unit system is US but whose `weight.lb` is
absent (the metric weight is present but not selected). -/
def missingWeightInput : ProfileInput :=
  { unitSystem := UnitSystem.us
    sex := Sex.male
    ageYears := 30
    height := { cm := none, inches := some 70 }
    weight := { kg := some 80, lb := none }
    bodyFatMode := BodyFatMode.unknown
    bodyFatPercent := none
    activity := { preset := some 1.55, useCustom := false, customMultiplier := none }
    deltas := { cut := -500, bulk := 500, recomp := -200 }
    bulkProteinGPerLb := 1
    dexa := { enabled := false, fatMassKg := none, leanMassKg := none } }

/-- C7 counterexample: with the active unit system's weight absent,
`calculateAll` does not fail fast — the TypeScript non-null assertion has
no runtime effect, so a full `Results` value is still produced and its
figures are NaN rather than an error. -/
theorem missing_weight_counterexample :
    missingWeightInput.unitSystem = UnitSystem.us ∧
    missingWeightInput.weight.lb = none ∧
    (calculateAll missingWeightInput).maintenance.proteinG = JVal.nan ∧
    (calculateAll missingWeightInput).tdee = JVal.nan := by
  refine ⟨rfl, rfl, ?_, ?_⟩ <;>
    simp [calculateAll, makeMacros, tdeeRawOf, recommendedBmrRawOf,
      katchMcArdleOf, massesOf, mifflinOf, revisedHarrisBenedictOf,
      activityMultiplierOf, weightLbOf, weightKgOf, lbToKg, heightCmOf,
      sexFactorOf, missingWeightInput]

/-- C7 amended: `calculateAll` performs no runtime presence checks; when
the active unit system's weight is absent it still returns a complete
`Results` value in which the weight-derived figures (all four goals'
protein grams, and carbohydrate grams) are NaN, instead of failing fast. -/
theorem missing_weight_returns_nan (input : ProfileInput)
    (hus : input.unitSystem = UnitSystem.us) (hlb : input.weight.lb = none) :
    (calculateAll input).maintenance.proteinG = JVal.nan ∧
    (calculateAll input).cut.proteinG = JVal.nan ∧
    (calculateAll input).recomp.proteinG = JVal.nan ∧
    (calculateAll input).bulk.proteinG = JVal.nan ∧
    (calculateAll input).maintenance.carbsG = JVal.nan := by
  have hw : weightLbOf input = JVal.nan := by
    simp [weightLbOf, weightKgOf, lbToKg, hus, hlb]
  refine ⟨?_, ?_, ?_, ?_, ?_⟩ <;> simp [calculateAll, makeMacros, hw]

/-- C7 amended witness: the NaN-propagation theorem at the concrete
missing-weight profile. -/
theorem missing_weight_returns_nan_witness :
    (calculateAll missingWeightInput).maintenance.proteinG = JVal.nan ∧
    (calculateAll missingWeightInput).cut.proteinG = JVal.nan ∧
    (calculateAll missingWeightInput).recomp.proteinG = JVal.nan ∧
    (calculateAll missingWeightInput).bulk.proteinG = JVal.nan ∧
    (calculateAll missingWeightInput).maintenance.carbsG = JVal.nan :=
  missing_weight_returns_nan missingWeightInput rfl rfl

/- ======================== C8 ======================== -/

/-- C8: the `calculateAll` exported by src/lib/calcs.ts throws
"Not implemented yet" on every input and never returns a `Results` value,
so it is not extensionally equal to the full engine of the same signature
in part_002 (which always returns a value). -/
theorem lib_stub_always_errors :
    (∀ input, libCalculateAll input = Except.error "Not implemented yet") ∧
    (∀ input, libCalculateAll input ≠ calculateAllE input) :=
  ⟨fun _ => rfl, fun input h => by simp [libCalculateAll, calculateAllE] at h⟩

/- ======================== C9 ======================== -/

/-- C9: the output `tdee` is `round(recommendedBmr * m)` computed from the
unrounded recommended BMR, where `m` is `customMultiplier` when
`activity.useCustom` is true and `preset` otherwise; the output
`recommendedBmr` is the same unrounded value rounded separately. -/
theorem tdee_from_unrounded_bmr (input : ProfileInput) (m : ℚ) (hv : Valid input)
    (hm : (if input.activity.useCustom = true then input.activity.customMultiplier
      else input.activity.preset) = some m) :
    (calculateAll input).tdee = jround (recommendedBmrRawOf input * JVal.num m) ∧
    (calculateAll input).bmr.recommendedBmr = jround (recommendedBmrRawOf input) := by
  refine ⟨?_, rfl⟩
  have h1 : (calculateAll input).tdee
      = jround (recommendedBmrRawOf input * activityMultiplierOf input) := rfl
  rw [h1]
  cases hc : input.activity.useCustom <;>
    simp [hc] at hm <;> simp [activityMultiplierOf, hc, hm]

/-- C9 witness: the TDEE theorem at the sample profile (preset 1.55). -/
theorem tdee_from_unrounded_bmr_witness :
    Valid sampleInput ∧
    (calculateAll sampleInput).tdee =
      jround (recommendedBmrRawOf sampleInput * JVal.num 1.55) ∧
    (calculateAll sampleInput).bmr.recommendedBmr =
      jround (recommendedBmrRawOf sampleInput) :=
  ⟨valid_sample, tdee_from_unrounded_bmr sampleInput 1.55 valid_sample rfl⟩

/- ======================== C10 ======================== -/

/-- C10: conversions use exactly 1 lb = 0.45359237 kg and 1 in = 2.54 cm
on the field selected by `unitSystem`; for a US profile the derived
`weightLb` (`lbToKg(lb) / 0.45359237`) round-trips to the input pounds
exactly, so the maintenance protein grams are `round(lb * 1.0)`. -/
theorem unit_conversion_roundtrip (input : ProfileInput) (lb hin : ℚ)
    (hv : Valid input) (hus : input.unitSystem = UnitSystem.us)
    (hlb : input.weight.lb = some lb) (hhin : input.height.inches = some hin) :
    weightKgOf input = JVal.num (lb * 0.45359237) ∧
    heightCmOf input = JVal.num (hin * 2.54) ∧
    weightLbOf input = JVal.num lb ∧
    (calculateAll input).maintenance.proteinG = jround (JVal.num lb) := by
  have hw : weightKgOf input = JVal.num (lb * 0.45359237) := by
    simp [weightKgOf, lbToKg, hus, hlb]
  have hl : weightLbOf input = JVal.num lb := by
    simp [weightLbOf, hw]
    norm_num
  refine ⟨hw, ?_, hl, ?_⟩
  · simp [heightCmOf, inToCm, hus, hhin]
  · have h0 : (calculateAll input).maintenance.proteinG
        = jround (weightLbOf input * 1.0) := rfl
    rw [h0, hl]
    norm_num

/-- C10 witness: the conversion theorem at the sample profile (180 lb,
70 in): maintenance protein is round(180) = 180 grams. -/
theorem unit_conversion_roundtrip_witness :
    Valid sampleInput ∧
    weightKgOf sampleInput = JVal.num (180 * 0.45359237) ∧
    heightCmOf sampleInput = JVal.num (70 * 2.54) ∧
    weightLbOf sampleInput = JVal.num 180 ∧
    (calculateAll sampleInput).maintenance.proteinG = jround (JVal.num 180) :=
  ⟨valid_sample, unit_conversion_roundtrip sampleInput 180 70 valid_sample rfl rfl rfl⟩

end NutritionCalc
